import Mathlib

/-
Verification of the SecurePass-Analyzer core engine
(src/password_analyzer.py and src/password_generator.py).

Passwords are modelled as `List Char`.  Character classes follow the
ASCII ranges the source's regexes use.  The external guess estimator
(zxcvbn) is out of the repository; per the spec it is a black-box total
function and is modelled as an arbitrary function parameter.  Randomness
(`secrets.choice`, `random.shuffle`) is modelled by injected streams of
natural numbers: one stream for the cryptographically secure `secrets`
module and a separate stream for the statistics-grade `random` module,
mirroring the fact that the source draws from both.
-/

namespace SecurePass

/-- Symbol set of the analyzer's regex
`[!@#$%^&*()_+\-=\[\]{};:'",.<>?/\\|`~]` (32 characters). -/
def analyzerSymbols : List Char :=
  "!@#$%^&*()_+-=[]\x7b\x7d;:\x27\",.<>?/\\|`~".toList

/-- Membership in the analyzer's symbol set. -/
def isSymbolChar (c : Char) : Bool := analyzerSymbols.contains c

/-- Regex `[a-z]` found somewhere in the password. -/
def hasLower (p : List Char) : Bool := p.any Char.isLower

/-- Regex `[A-Z]` found somewhere in the password. -/
def hasUpper (p : List Char) : Bool := p.any Char.isUpper

/-- Regex `[0-9]` found somewhere in the password. -/
def hasNumber (p : List Char) : Bool := p.any Char.isDigit

/-- Symbol-class regex found somewhere in the password. -/
def hasSymbol (p : List Char) : Bool := p.any isSymbolChar

/-- Literal space found somewhere in the password (`' ' in password`). -/
def hasSpace (p : List Char) : Bool := p.contains ' '

/-- Result of `PasswordAnalyzer.get_character_diversity`. -/
structure CharacterDiversity where
  has_lowercase : Bool
  has_uppercase : Bool
  has_numbers : Bool
  has_symbols : Bool
  has_spaces : Bool
deriving DecidableEq

/-- Embedding of `PasswordAnalyzer.get_character_diversity`. -/
def get_character_diversity (p : List Char) : CharacterDiversity :=
  { has_lowercase := hasLower p
    has_uppercase := hasUpper p
    has_numbers := hasNumber p
    has_symbols := hasSymbol p
    has_spaces := hasSpace p }

/-- First list occurs at the head of the second list. -/
def startsRun : List Char → List Char → Bool
  | [], _ => true
  | _ :: _, [] => false
  | a :: as, b :: bs => a == b && startsRun as bs

/-- First list occurs as a contiguous run inside the second list
(Python's `in` on strings / an unanchored regex alternative). -/
def containsRun (needle : List Char) : List Char → Bool
  | [] => startsRun needle []
  | b :: bs => startsRun needle (b :: bs) || containsRun needle bs

/-- ASCII lowercasing, modelling `str.lower()` on the source's
ASCII-ranged patterns. -/
def toLowerL (p : List Char) : List Char := p.map Char.toLower

/-- The nine 3-digit runs of the sequential-number regex alternation. -/
def seqNumberRuns : List (List Char) :=
  ["012", "123", "234", "345", "456", "567", "678", "789", "890"].map
    String.toList

/-- The 24 3-letter runs of the sequential-letter regex alternation. -/
def seqLetterRuns : List (List Char) :=
  ["abc", "bcd", "cde", "def", "efg", "fgh", "ghi", "hij", "ijk", "jkl",
   "klm", "lmn", "mno", "nop", "opq", "pqr", "qrs", "rst", "stu", "tuv",
   "uvw", "vwx", "wxy", "xyz"].map String.toList

/-- Keyboard substrings from `PasswordAnalyzer.__init__`. -/
def keyboardPatterns : List (List Char) :=
  ["qwerty", "asdf", "zxcv", "1234", "0987",
   "qwertyuiop", "asdfghjkl", "zxcvbnm"].map String.toList

/-- Common-password corpus from `_load_common_passwords`. -/
def commonPasswords : List (List Char) :=
  ["password", "123456", "password123", "admin", "letmein",
   "welcome", "monkey", "1234567890", "qwerty", "abc123",
   "Password1", "password1", "123456789", "welcome123"].map String.toList

/-- Regex `(.)\1{2,}`: some character repeated at least three times
consecutively. -/
def hasTripleRun : List Char → Bool
  | a :: b :: c :: rest => (a == b && b == c) || hasTripleRun (b :: c :: rest)
  | _ => false

/-- Separator class (dash or slash) of the date regex. -/
def isDateSep (c : Char) : Bool := c == '-' || c == '/'

/-- The list starts with at least `n` characters, the first `n` of which
are digits. -/
def digitRun (l : List Char) (n : Nat) : Bool :=
  decide ((l.take n).length = n) && (l.take n).all Char.isDigit

/-- A match of "2-4 digits, separator, 2 digits, separator, 2-4 digits"
(the first alternative of the date regex) starting at the head of the
list; existential regex-search semantics, so the bounded quantifiers are
tried over 2, 3 and 4. -/
def dateHeadMatch (l : List Char) : Bool :=
  [2, 3, 4].any fun a =>
    digitRun l a &&
    match l.drop a with
    | s1 :: r2 =>
        isDateSep s1 && digitRun r2 2 &&
        (match r2.drop 2 with
         | s2 :: r3 => isDateSep s2 && [2, 3, 4].any fun b => digitRun r3 b
         | [] => false)
    | [] => false

/-- Some suffix of the list satisfies the check (unanchored `re.search`). -/
def anySuffix (f : List Char → Bool) : List Char → Bool
  | [] => f []
  | c :: cs => f (c :: cs) || anySuffix f cs

/-- Date regex searched anywhere: a separator-delimited date-like run,
or a run of 6 to 8 digits.  A run of at least six digits contains a
6-digit match, so the second alternative reduces to a 6-digit head
match at some position. -/
def datePatternB (p : List Char) : Bool :=
  anySuffix (fun l => dateHeadMatch l || digitRun l 6) p

/-- Result of `PasswordAnalyzer.check_patterns`. -/
structure PatternFindings where
  sequential_numbers : Bool
  sequential_letters : Bool
  repeated_characters : Bool
  keyboard_pattern : Bool
  common_word : Bool
  date_pattern : Bool
deriving DecidableEq

/-- Embedding of `PasswordAnalyzer.check_patterns`. -/
def check_patterns (p : List Char) : PatternFindings :=
  { sequential_numbers := seqNumberRuns.any fun r => containsRun r (toLowerL p)
    sequential_letters := seqLetterRuns.any fun r => containsRun r (toLowerL p)
    repeated_characters := hasTripleRun p
    keyboard_pattern := keyboardPatterns.any fun r => containsRun r (toLowerL p)
    common_word := commonPasswords.contains (toLowerL p)
    date_pattern := datePatternB p }

/-- Charset size used by `calculate_entropy`. -/
def charset_size (p : List Char) : Nat :=
  (if hasLower p then 26 else 0) + (if hasUpper p then 26 else 0) +
  (if hasNumber p then 10 else 0) + (if hasSymbol p then 32 else 0)

/-- Rounding to two decimal places, modelling Python's `round(x, 2)`.
Tie-breaking (half-to-even in Python, half-up here) can only differ at
exact half-cent values, which `length * log2(charset)` attains only when
the charset size is a power of two, where the value is a whole number
and both conventions agree. -/
noncomputable def round2 (x : ℝ) : ℝ := (round (100 * x) : ℤ) / 100

/-- Embedding of `PasswordAnalyzer.calculate_entropy`. -/
noncomputable def calculate_entropy (p : List Char) : ℝ :=
  if charset_size p = 0 then 0
  else round2 ((p.length : ℝ) * Real.logb 2 (charset_size p))

/-- Black-box result of the external guess estimator (zxcvbn), per
spec section 6: a total function producing a 0..4 score, four
crack-time display strings and feedback. -/
structure ZxcvbnResult where
  score : Nat
  offline_slow : String
  offline_fast : String
  online_throttled : String
  online_unthrottled : String
  warning : String
  suggestions : List String

/-- Length component of `calculate_score` (lines 79-87). -/
def lengthPoints (n : Nat) : ℤ :=
  if 16 ≤ n then 30 else if 12 ≤ n then 25 else if 8 ≤ n then 15
  else max 0 (2 * (n : ℤ))

/-- Entropy component of `calculate_score` (lines 90-98); `int(e / 2)`
truncates toward zero, which on the clamped branch agrees with the
floor. -/
noncomputable def entropyPoints (e : ℝ) : ℤ :=
  if 60 ≤ e then 30 else if 40 ≤ e then 20 else if 25 ≤ e then 10
  else max 0 ⌊e / 2⌋

/-- Diversity component of `calculate_score` (line 102): 5 points per
true flag. -/
def diversityPoints (d : CharacterDiversity) : ℤ :=
  (if d.has_lowercase then 5 else 0) + (if d.has_uppercase then 5 else 0) +
  (if d.has_numbers then 5 else 0) + (if d.has_symbols then 5 else 0) +
  (if d.has_spaces then 5 else 0)

/-- Pattern penalties of `calculate_score` (lines 105-117). -/
def patternPenalty (f : PatternFindings) : ℤ :=
  (if f.sequential_numbers then -5 else 0) +
  (if f.sequential_letters then -5 else 0) +
  (if f.repeated_characters then -10 else 0) +
  (if f.keyboard_pattern then -10 else 0) +
  (if f.common_word then -20 else 0) +
  (if f.date_pattern then -5 else 0)

/-- Strength label thresholds of `calculate_score` (lines 127-136). -/
def strengthLabel (s : ℤ) : String :=
  if 80 ≤ s then "Very Strong" else if 60 ≤ s then "Strong"
  else if 40 ≤ s then "Moderate" else if 20 ≤ s then "Weak"
  else "Very Weak"

/-- Embedding of `PasswordAnalyzer.calculate_score`, parameterized by
the external guess estimator. -/
noncomputable def calculate_score (zx : List Char → ZxcvbnResult)
    (p : List Char) : ℤ × String :=
  if p = [] then (0, "Empty")
  else
    let score := lengthPoints p.length + entropyPoints (calculate_entropy p) +
      diversityPoints (get_character_diversity p) +
      patternPenalty (check_patterns p) + 4 * ((zx p).score : ℤ)
    let clamped := max 0 (min 100 score)
    (clamped, strengthLabel clamped)

/-- Embedding of `PasswordAnalyzer.generate_recommendations`. -/
def generate_recommendations (p : List Char) (patterns : PatternFindings)
    (diversity : CharacterDiversity) : List String :=
  let recs :=
    (if p.length < 12 then
      ["Increase password length to at least 12 characters"] else []) ++
    (if !diversity.has_uppercase then ["Add uppercase letters"] else []) ++
    (if !diversity.has_lowercase then ["Add lowercase letters"] else []) ++
    (if !diversity.has_numbers then ["Include numbers"] else []) ++
    (if !diversity.has_symbols then
      ["Add special symbols (!@#$%^&*)"] else []) ++
    (if patterns.sequential_numbers then
      ["Avoid sequential numbers (123, 456)"] else []) ++
    (if patterns.sequential_letters then
      ["Avoid sequential letters (abc, xyz)"] else []) ++
    (if patterns.repeated_characters then
      ["Avoid repeating the same character multiple times"] else []) ++
    (if patterns.keyboard_pattern then
      ["Avoid keyboard patterns (qwerty, asdf)"] else []) ++
    (if patterns.common_word then
      ["This password is too common - choose something unique"] else []) ++
    (if patterns.date_pattern then
      ["Avoid using dates as they\x27re easy to guess"] else [])
  if recs = [] then
    ["Great password! Consider using a password manager to store it securely."]
  else recs

/-- The four crack-time display strings of the report. -/
structure CrackTimes where
  offline_slow : String
  offline_fast : String
  online_throttled : String
  online_unthrottled : String

/-- The dictionary returned by `PasswordAnalyzer.analyze`, as a record. -/
structure AnalysisReport where
  password_length : Nat
  score : ℤ
  strength : String
  entropy_bits : ℝ
  patterns_found : PatternFindings
  character_diversity : CharacterDiversity
  crack_time_estimates : CrackTimes
  recommendations : List String
  zxcvbn_score : Nat
  warning : String
  suggestions : List String

/-- Embedding of `PasswordAnalyzer.analyze`, parameterized by the
external guess estimator. -/
noncomputable def analyze (zx : List Char → ZxcvbnResult)
    (p : List Char) : AnalysisReport :=
  { password_length := p.length
    score := (calculate_score zx p).1
    strength := (calculate_score zx p).2
    entropy_bits := calculate_entropy p
    patterns_found := check_patterns p
    character_diversity := get_character_diversity p
    crack_time_estimates :=
      { offline_slow := (zx p).offline_slow
        offline_fast := (zx p).offline_fast
        online_throttled := (zx p).online_throttled
        online_unthrottled := (zx p).online_unthrottled }
    recommendations :=
      generate_recommendations p (check_patterns p) (get_character_diversity p)
    zxcvbn_score := (zx p).score
    warning := (zx p).warning
    suggestions := (zx p).suggestions }

/-- Lowercase pool of `PasswordGenerator` (`string.ascii_lowercase`). -/
def lowercaseChars : List Char := "abcdefghijklmnopqrstuvwxyz".toList

/-- Uppercase pool of `PasswordGenerator` (`string.ascii_uppercase`). -/
def uppercaseChars : List Char := "ABCDEFGHIJKLMNOPQRSTUVWXYZ".toList

/-- Digit pool of `PasswordGenerator` (`string.digits`). -/
def digitChars : List Char := "0123456789".toList

/-- Symbol pool of `PasswordGenerator.__init__`. -/
def genSymbols : List Char := "!@#$%^&*()_+-=[]\x7b\x7d|;:,.<>?".toList

/-- Lowercase pool after the optional ambiguity filter (drops l and o). -/
def lcPool (ea : Bool) : List Char :=
  if ea then lowercaseChars.filter (fun c => !(c == 'l' || c == 'o'))
  else lowercaseChars

/-- Uppercase pool after the optional ambiguity filter (drops O and I). -/
def ucPool (ea : Bool) : List Char :=
  if ea then uppercaseChars.filter (fun c => !(c == 'O' || c == 'I'))
  else uppercaseChars

/-- Digit pool after the optional ambiguity filter (drops 0 and 1). -/
def dgPool (ea : Bool) : List Char :=
  if ea then digitChars.filter (fun c => !(c == '0' || c == '1'))
  else digitChars

/-- Model of `secrets.choice` / one RNG draw: the stream value selects
an element of a non-empty sequence by reduction modulo its length. -/
def choice (r : Nat) (l : List Char) : Char := l.getD (r % l.length) '?'

/-- The fill pool of `generate_random` (lines 50-81): union of the
selected class pools, then every character of `exclude_chars` removed. -/
def buildPool (ul uu ud us ea : Bool) (excl : List Char) : List Char :=
  ((if ul then lcPool ea else []) ++ (if uu then ucPool ea else []) ++
   (if ud then dgPool ea else []) ++ (if us then genSymbols else [])).filter
    (fun c => !excl.contains c)

/-- The mandatory characters of `generate_random` (lines 52-77): one
draw per selected class, taken from the class pool before
`exclude_chars` is applied.  Each draw consumes its own stream value. -/
def buildRequired (sec : Nat → Nat) (ul uu ud us ea : Bool) : List Char :=
  (if ul then [choice (sec 0) (lcPool ea)] else []) ++
  (if uu then [choice (sec 1) (ucPool ea)] else []) ++
  (if ud then [choice (sec 2) (dgPool ea)] else []) ++
  (if us then [choice (sec 3) genSymbols] else [])

/-- Model of `random.shuffle` as an RNG-driven permutation: repeatedly
draw an index from the statistics-grade stream and move that element to
the front of the remainder.  The fuel equals the list length at the
top-level call. -/
def shuffleFuel (ins : Nat → Nat) : Nat → Nat → List Char → List Char
  | 0, _, l => l
  | _ + 1, _, [] => []
  | fuel + 1, k, a :: rest =>
    (a :: rest).getD (ins k % (a :: rest).length) '?' ::
      shuffleFuel ins fuel (k + 1)
        ((a :: rest).eraseIdx (ins k % (a :: rest).length))

/-- Model of `random.shuffle(password)` (line 96): a permutation of the
list driven by the `random`-module (statistics-grade) stream `ins`. -/
def shuffle (ins : Nat → Nat) (l : List Char) : List Char :=
  shuffleFuel ins l.length 0 l

/-- Embedding of `PasswordGenerator.generate_random`.  `sec` is the
stream of draws of the `secrets` module, `ins` the stream of the
`random` module used by the final shuffle.  The mandatory per-class
draws happen before the pool-emptiness check in the source; since draws
are effect-free in this model, performing them after the check is
observationally identical. -/
def generate_random (sec ins : Nat → Nat) (len : Nat)
    (ul uu ud us ea : Bool) (excl : List Char) :
    Except String (List Char) :=
  if len < 4 then .error "Password length must be at least 4 characters"
  else if buildPool ul uu ud us ea excl = [] then
    .error "No characters available with the specified criteria"
  else
    .ok (shuffle ins
      (buildRequired sec ul uu ud us ea ++
       (List.range (len - (buildRequired sec ul uu ud us ea).length)).map
         fun k => choice (sec (4 + k)) (buildPool ul uu ud us ea excl)))

/-- True exactly when the generator call raised. -/
def isErr : Except String (List Char) → Bool
  | .error _ => true
  | .ok _ => false

/-- Full pool of the custom-pattern asterisk substitution. -/
def patternPool : List Char :=
  lowercaseChars ++ uppercaseChars ++ digitChars ++ genSymbols

/-- Alphanumeric pool of the custom-pattern substitution for a. -/
def alnumPool : List Char := lowercaseChars ++ uppercaseChars ++ digitChars

/-- One step of `generate_custom_pattern` (lines 214-230): substitution
for the recognized pattern characters, literal pass-through otherwise. -/
def substitutePatternChar (r : Nat) (c : Char) : Char :=
  if c == 'l' then choice r lowercaseChars
  else if c == 'L' then choice r uppercaseChars
  else if c == 'd' then choice r digitChars
  else if c == 's' then choice r genSymbols
  else if c == 'a' then choice r alnumPool
  else if c == '*' then choice r patternPool
  else c

/-- Recursion of `generate_custom_pattern` with the stream cursor. -/
def customPatternFrom (sec : Nat → Nat) : Nat → List Char → List Char
  | _, [] => []
  | k, c :: rest =>
    substitutePatternChar (sec k) c :: customPatternFrom sec (k + 1) rest

/-- Embedding of `PasswordGenerator.generate_custom_pattern`. -/
def generate_custom_pattern (sec : Nat → Nat) (pat : List Char) :
    List Char :=
  customPatternFrom sec 0 pat

/-- The relation between a pattern character and the character emitted
for it, per the substitution table of `generate_custom_pattern`. -/
def patMatchesB (pc c : Char) : Bool :=
  if pc == 'l' then c.isLower
  else if pc == 'L' then c.isUpper
  else if pc == 'd' then c.isDigit
  else if pc == 's' then decide (c ∈ genSymbols)
  else if pc == 'a' then decide (c ∈ alnumPool)
  else if pc == '*' then decide (c ∈ patternPool)
  else c == pc

/-- Length component as the claim words it: at least 16 characters give
30, at least 12 give 25, at least 8 give 15, otherwise twice the length
capped at 14. -/
def claimLengthComponent (n : Nat) : ℤ :=
  if 16 ≤ n then 30 else if 12 ≤ n then 25 else if 8 ≤ n then 15
  else min 14 (2 * (n : ℤ))

/-- Entropy component as the claim words it: at least 60 bits give 30,
at least 40 give 20, at least 25 give 10, otherwise the floor of half
the entropy. -/
noncomputable def claimEntropyComponent (e : ℝ) : ℤ :=
  if 60 ≤ e then 30 else if 40 ≤ e then 20 else if 25 ≤ e then 10
  else ⌊e / 2⌋

/-- Number of true CharacterDiversity flags. -/
def trueFlagCount (d : CharacterDiversity) : ℤ :=
  (if d.has_lowercase then 1 else 0) + (if d.has_uppercase then 1 else 0) +
  (if d.has_numbers then 1 else 0) + (if d.has_symbols then 1 else 0) +
  (if d.has_spaces then 1 else 0)

/-- Diversity component as the claim words it: 5 points per true flag,
space included. -/
def claimDiversityComponent (d : CharacterDiversity) : ℤ :=
  5 * trueFlagCount d

/-- Fixed pattern penalties as the claim words them. -/
def claimPatternPenalty (f : PatternFindings) : ℤ :=
  (if f.sequential_numbers then -5 else 0) +
  (if f.sequential_letters then -5 else 0) +
  (if f.repeated_characters then -10 else 0) +
  (if f.keyboard_pattern then -10 else 0) +
  (if f.common_word then -20 else 0) +
  (if f.date_pattern then -5 else 0)

/-- Composite score as the claim words it: the sum of the length,
entropy, diversity, penalty and four-times-guess-estimator components,
clamped to the interval from 0 to 100. -/
noncomputable def claimCompositeScore (zx : List Char → ZxcvbnResult)
    (p : List Char) : ℤ :=
  max 0 (min 100
    (claimLengthComponent p.length +
     claimEntropyComponent (calculate_entropy p) +
     claimDiversityComponent (get_character_diversity p) +
     claimPatternPenalty (check_patterns p) + 4 * ((zx p).score : ℤ)))

/-- Strength label thresholds as the claim words them. -/
def claimLabel (s : ℤ) : String :=
  if 80 ≤ s then "Very Strong" else if 60 ≤ s then "Strong"
  else if 40 ≤ s then "Moderate" else if 20 ≤ s then "Weak"
  else "Very Weak"

lemma round2_nonneg {x : ℝ} (hx : 0 ≤ x) : 0 ≤ round2 x := by
  unfold round2
  have h1 : (0 : ℤ) ≤ round (100 * x) := by
    rw [round_eq]
    exact Int.floor_nonneg.mpr (by linarith)
  have h2 : (0 : ℝ) ≤ (round (100 * x) : ℤ) := Int.cast_nonneg.mpr h1
  positivity

lemma entropy_nonneg (p : List Char) : 0 ≤ calculate_entropy p := by
  unfold calculate_entropy
  split
  · exact le_refl 0
  · rename_i h
    apply round2_nonneg
    apply mul_nonneg (Nat.cast_nonneg _)
    apply Real.logb_nonneg one_lt_two
    exact_mod_cast Nat.one_le_iff_ne_zero.mpr h

lemma calculate_score_fst_bounds (zx : List Char → ZxcvbnResult)
    (p : List Char) :
    0 ≤ (calculate_score zx p).1 ∧ (calculate_score zx p).1 ≤ 100 := by
  unfold calculate_score
  split
  · exact ⟨le_refl 0, by norm_num⟩
  · exact ⟨le_max_left _ _, max_le (by norm_num) (min_le_left _ _)⟩

lemma ite_nil_length_pos (aff : String) (l : List String) :
    0 < (if l = [] then [aff] else l).length := by
  split
  · simp
  · rename_i h
    exact List.length_pos.mpr h

lemma generate_recommendations_length_pos (p : List Char)
    (pat : PatternFindings) (d : CharacterDiversity) :
    0 < (generate_recommendations p pat d).length := by
  unfold generate_recommendations
  exact ite_nil_length_pos _ _

lemma choice_mem (r : Nat) {l : List Char} (h : l ≠ []) : choice r l ∈ l := by
  unfold choice
  have hlt : r % l.length < l.length := Nat.mod_lt _ (List.length_pos.mpr h)
  rw [List.getD_eq_getElem _ _ hlt]
  exact List.getElem_mem hlt

lemma cons_eraseIdx_perm :
    ∀ (l : List Char) (i : Nat), i < l.length →
      List.Perm (l.getD i '?' :: l.eraseIdx i) l := by
  intro l
  induction l with
  | nil => intro i hi; simp at hi
  | cons a as ih =>
    intro i hi
    cases i with
    | zero => simp
    | succ j =>
      have hj : j < as.length := by simpa using hi
      have e1 : (a :: as).getD (j + 1) '?' :: (a :: as).eraseIdx (j + 1) =
          as.getD j '?' :: a :: as.eraseIdx j := by simp
      rw [e1]
      have step : List.Perm (as.getD j '?' :: a :: as.eraseIdx j)
          (a :: (as.getD j '?' :: as.eraseIdx j)) := List.Perm.swap a _ _
      exact step.trans (List.Perm.cons a (ih j hj))

lemma shuffleFuel_perm (ins : Nat → Nat) :
    ∀ (fuel k : Nat) (l : List Char),
      List.Perm (shuffleFuel ins fuel k l) l := by
  intro fuel
  induction fuel with
  | zero => intro k l; simp [shuffleFuel]
  | succ n ih =>
    intro k l
    cases l with
    | nil => simp [shuffleFuel]
    | cons a rest =>
      have hlt : ins k % (a :: rest).length < (a :: rest).length :=
        Nat.mod_lt _ (by simp)
      have e1 : shuffleFuel ins (n + 1) k (a :: rest) =
          (a :: rest).getD (ins k % (a :: rest).length) '?' ::
            shuffleFuel ins n (k + 1)
              ((a :: rest).eraseIdx (ins k % (a :: rest).length)) := rfl
      rw [e1]
      exact (List.Perm.cons _ (ih (k + 1) _)).trans
        (cons_eraseIdx_perm _ _ hlt)

lemma shuffle_perm (ins : Nat → Nat) (l : List Char) :
    List.Perm (shuffle ins l) l :=
  shuffleFuel_perm ins l.length 0 l

lemma generate_random_ok_inv (sec ins : Nat → Nat) (len : Nat)
    (ul uu ud us ea : Bool) (excl : List Char) (s : List Char)
    (h : generate_random sec ins len ul uu ud us ea excl = Except.ok s) :
    ¬ len < 4 ∧ buildPool ul uu ud us ea excl ≠ [] ∧
    s = shuffle ins
      (buildRequired sec ul uu ud us ea ++
       (List.range (len - (buildRequired sec ul uu ud us ea).length)).map
         fun k => choice (sec (4 + k)) (buildPool ul uu ud us ea excl)) := by
  unfold generate_random at h
  split_ifs at h with h1 h2
  exact ⟨h1, h2, (Except.ok.inj h).symm⟩

lemma buildRequired_length_le (sec : Nat → Nat) (ul uu ud us ea : Bool) :
    (buildRequired sec ul uu ud us ea).length ≤ 4 := by
  unfold buildRequired
  split_ifs <;> simp

lemma lcPool_ne_nil (ea : Bool) : lcPool ea ≠ [] := by
  cases ea <;> decide

lemma ucPool_ne_nil (ea : Bool) : ucPool ea ≠ [] := by
  cases ea <;> decide

lemma dgPool_ne_nil (ea : Bool) : dgPool ea ≠ [] := by
  cases ea <;> decide

lemma genSymbols_ne_nil : genSymbols ≠ [] := by decide

lemma lcPool_isLower (ea : Bool) : ∀ c ∈ lcPool ea, c.isLower = true := by
  cases ea <;> decide

lemma ucPool_isUpper (ea : Bool) : ∀ c ∈ ucPool ea, c.isUpper = true := by
  cases ea <;> decide

lemma dgPool_isDigit (ea : Bool) : ∀ c ∈ dgPool ea, c.isDigit = true := by
  cases ea <;> decide

lemma ok_length (sec ins : Nat → Nat) (len : Nat)
    (ul uu ud us ea : Bool) (excl : List Char) (s : List Char)
    (h : generate_random sec ins len ul uu ud us ea excl = Except.ok s) :
    s.length = len := by
  obtain ⟨h1, _, rfl⟩ := generate_random_ok_inv sec ins len ul uu ud us ea excl s h
  have hr := buildRequired_length_le sec ul uu ud us ea
  have h4 : 4 ≤ len := Nat.not_lt.mp h1
  rw [(shuffle_perm ins _).length_eq]
  simp only [List.length_append, List.length_map, List.length_range]
  omega

lemma ok_mem_lower (sec ins : Nat → Nat) (len : Nat)
    (uu ud us ea : Bool) (excl : List Char) (s : List Char)
    (h : generate_random sec ins len true uu ud us ea excl = Except.ok s) :
    ∃ c ∈ s, c.isLower = true := by
  obtain ⟨_, _, rfl⟩ := generate_random_ok_inv sec ins len true uu ud us ea excl s h
  refine ⟨choice (sec 0) (lcPool ea), ?_, ?_⟩
  · rw [(shuffle_perm ins _).mem_iff]
    apply List.mem_append_left
    unfold buildRequired
    simp
  · exact lcPool_isLower ea _ (choice_mem _ (lcPool_ne_nil ea))

lemma ok_mem_upper (sec ins : Nat → Nat) (len : Nat)
    (ul ud us ea : Bool) (excl : List Char) (s : List Char)
    (h : generate_random sec ins len ul true ud us ea excl = Except.ok s) :
    ∃ c ∈ s, c.isUpper = true := by
  obtain ⟨_, _, rfl⟩ := generate_random_ok_inv sec ins len ul true ud us ea excl s h
  refine ⟨choice (sec 1) (ucPool ea), ?_, ?_⟩
  · rw [(shuffle_perm ins _).mem_iff]
    apply List.mem_append_left
    unfold buildRequired
    simp
  · exact ucPool_isUpper ea _ (choice_mem _ (ucPool_ne_nil ea))

lemma ok_mem_digit (sec ins : Nat → Nat) (len : Nat)
    (ul uu us ea : Bool) (excl : List Char) (s : List Char)
    (h : generate_random sec ins len ul uu true us ea excl = Except.ok s) :
    ∃ c ∈ s, c.isDigit = true := by
  obtain ⟨_, _, rfl⟩ := generate_random_ok_inv sec ins len ul uu true us ea excl s h
  refine ⟨choice (sec 2) (dgPool ea), ?_, ?_⟩
  · rw [(shuffle_perm ins _).mem_iff]
    apply List.mem_append_left
    unfold buildRequired
    simp
  · exact dgPool_isDigit ea _ (choice_mem _ (dgPool_ne_nil ea))

lemma ok_mem_symbol (sec ins : Nat → Nat) (len : Nat)
    (ul uu ud ea : Bool) (excl : List Char) (s : List Char)
    (h : generate_random sec ins len ul uu ud true ea excl = Except.ok s) :
    ∃ c ∈ s, c ∈ genSymbols := by
  obtain ⟨_, _, rfl⟩ := generate_random_ok_inv sec ins len ul uu ud true ea excl s h
  refine ⟨choice (sec 3) genSymbols, ?_, ?_⟩
  · rw [(shuffle_perm ins _).mem_iff]
    apply List.mem_append_left
    unfold buildRequired
    simp
  · exact choice_mem _ genSymbols_ne_nil

lemma generate_random_isErr_eq (sec ins : Nat → Nat) (len : Nat)
    (ul uu ud us ea : Bool) (excl : List Char) :
    isErr (generate_random sec ins len ul uu ud us ea excl) =
      (decide (len < 4) || decide (buildPool ul uu ud us ea excl = [])) := by
  unfold generate_random
  split_ifs with h1 h2 <;> simp_all [isErr]

lemma lengthPoints_eq (n : Nat) : lengthPoints n = claimLengthComponent n := by
  unfold lengthPoints claimLengthComponent
  split_ifs with h1 h2 h3 <;> omega

lemma entropyPoints_eq {e : ℝ} (he : 0 ≤ e) :
    entropyPoints e = claimEntropyComponent e := by
  unfold entropyPoints claimEntropyComponent
  split_ifs with h1 h2 h3
  · rfl
  · rfl
  · rfl
  · exact max_eq_right (Int.floor_nonneg.mpr (by positivity))

lemma diversityPoints_eq (d : CharacterDiversity) :
    diversityPoints d = claimDiversityComponent d := by
  rcases d with ⟨a, b, c, e, f⟩
  cases a <;> cases b <;> cases c <;> cases e <;> cases f <;> decide

lemma mem_lowercase_isLower : ∀ c ∈ lowercaseChars, c.isLower = true := by
  decide

lemma mem_uppercase_isUpper : ∀ c ∈ uppercaseChars, c.isUpper = true := by
  decide

lemma mem_digits_isDigit : ∀ c ∈ digitChars, c.isDigit = true := by
  decide

lemma lowercaseChars_ne_nil : lowercaseChars ≠ [] := by decide

lemma uppercaseChars_ne_nil : uppercaseChars ≠ [] := by decide

lemma digitChars_ne_nil : digitChars ≠ [] := by decide

lemma alnumPool_ne_nil : alnumPool ≠ [] := by decide

lemma patternPool_ne_nil : patternPool ≠ [] := by decide

lemma substitutePatternChar_matches (r : Nat) (c : Char) :
    patMatchesB c (substitutePatternChar r c) = true := by
  unfold substitutePatternChar patMatchesB
  split_ifs
  · exact mem_lowercase_isLower _ (choice_mem _ lowercaseChars_ne_nil)
  · exact mem_uppercase_isUpper _ (choice_mem _ uppercaseChars_ne_nil)
  · exact mem_digits_isDigit _ (choice_mem _ digitChars_ne_nil)
  · exact decide_eq_true (choice_mem _ genSymbols_ne_nil)
  · exact decide_eq_true (choice_mem _ alnumPool_ne_nil)
  · exact decide_eq_true (choice_mem _ patternPool_ne_nil)
  · simp

lemma customPatternFrom_forall2 (sec : Nat → Nat) :
    ∀ (k : Nat) (pat : List Char),
      List.Forall₂ (fun pc c => patMatchesB pc c = true) pat
        (customPatternFrom sec k pat) := by
  intro k pat
  induction pat generalizing k with
  | nil => exact List.Forall₂.nil
  | cons c rest ih =>
    exact List.Forall₂.cons (substitutePatternChar_matches (sec k) c) (ih (k + 1))

lemma customPatternFrom_length (sec : Nat → Nat) :
    ∀ (k : Nat) (pat : List Char),
      (customPatternFrom sec k pat).length = pat.length := by
  intro k pat
  induction pat generalizing k with
  | nil => rfl
  | cons c rest ih => simp [customPatternFrom, ih]

/-- C1: for every password string and every external-estimator result,
the composite score returned by calculate_score (and reported by
analyze) is an integer in the interval from 0 to 100, and the entropy
returned by calculate_entropy is non-negative. -/
theorem analyzer_score_bounds_entropy_nonneg
    (zx : List Char → ZxcvbnResult) (p : List Char) :
    0 ≤ (calculate_score zx p).1 ∧ (calculate_score zx p).1 ≤ 100 ∧
    (analyze zx p).score = (calculate_score zx p).1 ∧
    0 ≤ calculate_entropy p :=
  ⟨(calculate_score_fst_bounds zx p).1, (calculate_score_fst_bounds zx p).2,
   rfl, entropy_nonneg p⟩

/-- C2: the empty password scores 0 with the distinct sixth label
"Empty", every PatternFindings flag is false and every
CharacterDiversity flag is false. -/
theorem empty_password_analysis (zx : List Char → ZxcvbnResult) :
    calculate_score zx [] = (0, "Empty") ∧
    (analyze zx []).score = 0 ∧
    (analyze zx []).strength = "Empty" ∧
    check_patterns [] = ⟨false, false, false, false, false, false⟩ ∧
    get_character_diversity [] = ⟨false, false, false, false, false⟩ :=
  ⟨rfl, rfl, rfl, by decide, by decide⟩

/-- C3: analyze is a total function: for every string (the empty string
included) and every result of the external estimator it returns a fully
populated AnalysisReport, each field holding the value of its generating
component, and the recommendation list is non-empty. -/
theorem analyze_total_report (zx : List Char → ZxcvbnResult)
    (p : List Char) :
    (analyze zx p).password_length = p.length ∧
    (analyze zx p).score = (calculate_score zx p).1 ∧
    (analyze zx p).strength = (calculate_score zx p).2 ∧
    (analyze zx p).entropy_bits = calculate_entropy p ∧
    (analyze zx p).patterns_found = check_patterns p ∧
    (analyze zx p).character_diversity = get_character_diversity p ∧
    (analyze zx p).crack_time_estimates =
      ⟨(zx p).offline_slow, (zx p).offline_fast,
       (zx p).online_throttled, (zx p).online_unthrottled⟩ ∧
    (analyze zx p).recommendations =
      generate_recommendations p (check_patterns p)
        (get_character_diversity p) ∧
    0 < (analyze zx p).recommendations.length ∧
    (analyze zx p).zxcvbn_score = (zx p).score := by
  refine ⟨?_, ?_, ?_, ?_, ?_, ?_, ?_, ?_, ?_, ?_⟩ <;> dsimp only [analyze]
  exact generate_recommendations_length_pos p (check_patterns p)
    (get_character_diversity p)

/-- C4: for every non-empty password the composite score equals the
clamped sum of the length, entropy, diversity, pattern-penalty and
four-times-guess-estimator components as the claim words them, and the
label follows the stated thresholds. -/
theorem score_decomposition (zx : List Char → ZxcvbnResult)
    (p : List Char) (h : p ≠ []) :
    calculate_score zx p =
      (claimCompositeScore zx p, claimLabel (claimCompositeScore zx p)) := by
  have hs : lengthPoints p.length + entropyPoints (calculate_entropy p) +
      diversityPoints (get_character_diversity p) +
      patternPenalty (check_patterns p) + 4 * ((zx p).score : ℤ) =
      claimLengthComponent p.length +
      claimEntropyComponent (calculate_entropy p) +
      claimDiversityComponent (get_character_diversity p) +
      claimPatternPenalty (check_patterns p) + 4 * ((zx p).score : ℤ) := by
    rw [lengthPoints_eq, entropyPoints_eq (entropy_nonneg p),
      diversityPoints_eq]
    rfl
  unfold calculate_score claimCompositeScore
  rw [if_neg h]
  dsimp only
  rw [hs]
  rfl

/-- Witness for C4 at the concrete password abc. -/
theorem score_decomposition_witness :
    calculate_score (fun _ => ⟨0, "", "", "", "", "", []⟩) ("abc".toList) =
      (claimCompositeScore (fun _ => ⟨0, "", "", "", "", "", []⟩)
         ("abc".toList),
       claimLabel (claimCompositeScore (fun _ => ⟨0, "", "", "", "", "", []⟩)
         ("abc".toList))) :=
  score_decomposition _ _ (by decide)

/-- C5: a Random request of length 16 with all four classes enabled and
no exclusions never fails, and every successful Random generation
yields a string of exactly the requested length containing at least one
character of each selected class. -/
theorem generate_random_length_and_classes (sec ins : Nat → Nat)
    (len : Nat) (ul uu ud us ea : Bool) (excl : List Char) (s : List Char)
    (h : generate_random sec ins len ul uu ud us ea excl = Except.ok s) :
    isErr (generate_random sec ins 16 true true true true false []) =
      false ∧
    s.length = len ∧
    (ul = true → ∃ c ∈ s, c.isLower = true) ∧
    (uu = true → ∃ c ∈ s, c.isUpper = true) ∧
    (ud = true → ∃ c ∈ s, c.isDigit = true) ∧
    (us = true → ∃ c ∈ s, c ∈ genSymbols) := by
  refine ⟨by rw [generate_random_isErr_eq]; decide,
    ok_length _ _ _ _ _ _ _ _ _ _ h, ?_, ?_, ?_, ?_⟩
  · intro hul; subst hul; exact ok_mem_lower _ _ _ _ _ _ _ _ _ h
  · intro huu; subst huu; exact ok_mem_upper _ _ _ _ _ _ _ _ _ h
  · intro hud; subst hud; exact ok_mem_digit _ _ _ _ _ _ _ _ _ h
  · intro hus; subst hus; exact ok_mem_symbol _ _ _ _ _ _ _ _ _ h

/-- Witness for C5: a concrete successful length-16 generation with all
four classes enabled. -/
theorem generate_random_length_and_classes_witness :
    (isErr (generate_random (fun _ => 0) (fun _ => 0) 16
        true true true true false []) = false ∧
     "aA0!aaaaaaaaaaaa".toList.length = 16 ∧
     (true = true → ∃ c ∈ "aA0!aaaaaaaaaaaa".toList, c.isLower = true) ∧
     (true = true → ∃ c ∈ "aA0!aaaaaaaaaaaa".toList, c.isUpper = true) ∧
     (true = true → ∃ c ∈ "aA0!aaaaaaaaaaaa".toList, c.isDigit = true) ∧
     (true = true → ∃ c ∈ "aA0!aaaaaaaaaaaa".toList, c ∈ genSymbols)) :=
  generate_random_length_and_classes (fun _ => 0) (fun _ => 0) 16
    true true true true false [] ("aA0!aaaaaaaaaaaa".toList) rfl

/-- C6: Random generation fails exactly when the requested length is
below 4 or the selection pool (after class selection and exclusions) is
empty; in every other case it returns a password string. -/
theorem generate_random_error_characterization (sec ins : Nat → Nat)
    (len : Nat) (ul uu ud us ea : Bool) (excl : List Char) :
    isErr (generate_random sec ins len ul uu ud us ea excl) =
      (decide (len < 4) || decide (buildPool ul uu ud us ea excl = [])) :=
  generate_random_isErr_eq sec ins len ul uu ud us ea excl

/-- C7: custom-pattern generation is total, emits exactly one character
per pattern character, each output position satisfies the substitution
table (unrecognized characters pass through literally), and on the
pattern LLLLdddd@@ the output has length 10 with four uppercase
letters, then four digits, then literally two at-signs. -/
theorem custom_pattern_total_and_positional (sec : Nat → Nat)
    (pat : List Char) :
    (generate_custom_pattern sec pat).length = pat.length ∧
    List.Forall₂ (fun pc c => patMatchesB pc c = true) pat
      (generate_custom_pattern sec pat) ∧
    (generate_custom_pattern sec ("LLLLdddd@@".toList)).length = 10 ∧
    ((generate_custom_pattern sec ("LLLLdddd@@".toList)).take 4).all
      Char.isUpper = true ∧
    (((generate_custom_pattern sec ("LLLLdddd@@".toList)).drop 4).take 4).all
      Char.isDigit = true ∧
    (generate_custom_pattern sec ("LLLLdddd@@".toList)).drop 8 =
      "@@".toList := by
  have e1 : generate_custom_pattern sec ("LLLLdddd@@".toList) =
      [choice (sec 0) uppercaseChars, choice (sec 1) uppercaseChars,
       choice (sec 2) uppercaseChars, choice (sec 3) uppercaseChars,
       choice (sec 4) digitChars, choice (sec 5) digitChars,
       choice (sec 6) digitChars, choice (sec 7) digitChars,
       '@', '@'] := rfl
  refine ⟨customPatternFrom_length sec 0 pat,
    customPatternFrom_forall2 sec 0 pat, ?_, ?_, ?_, ?_⟩ <;> rw [e1]
  · rfl
  · refine List.all_eq_true.mpr ?_
    intro x hx
    have hx' : x = choice (sec 0) uppercaseChars ∨
        x = choice (sec 1) uppercaseChars ∨
        x = choice (sec 2) uppercaseChars ∨
        x = choice (sec 3) uppercaseChars := by
      simpa using hx
    rcases hx' with rfl | rfl | rfl | rfl <;>
      exact mem_uppercase_isUpper _ (choice_mem _ uppercaseChars_ne_nil)
  · refine List.all_eq_true.mpr ?_
    intro x hx
    have hx' : x = choice (sec 4) digitChars ∨
        x = choice (sec 5) digitChars ∨
        x = choice (sec 6) digitChars ∨
        x = choice (sec 7) digitChars := by
      simpa using hx
    rcases hx' with rfl | rfl | rfl | rfl <;>
      exact mem_digits_isDigit _ (choice_mem _ digitChars_ne_nil)
  · rfl

/-- C8, counterexample: the short password aB-space-3-bang satisfies all
five diversity classes and triggers no pattern, yet the recommendation
list is the length advice, not the affirmative message. -/
theorem recommendations_claim_counterexample :
    get_character_diversity ("aB 3!".toList) =
      ⟨true, true, true, true, true⟩ ∧
    check_patterns ("aB 3!".toList) =
      ⟨false, false, false, false, false, false⟩ ∧
    generate_recommendations ("aB 3!".toList)
      (check_patterns ("aB 3!".toList))
      (get_character_diversity ("aB 3!".toList)) =
      ["Increase password length to at least 12 characters"] ∧
    decide (generate_recommendations ("aB 3!".toList)
      (check_patterns ("aB 3!".toList))
      (get_character_diversity ("aB 3!".toList)) =
      ["Great password! Consider using a password manager to store it securely."])
      = false := by
  decide

/-- C8, amended: the recommendation list is never empty, and for every
password of length at least 12 that satisfies all diversity classes and
triggers no pattern the engine returns exactly the one affirmative
recommendation. -/
theorem recommendations_nonempty_and_affirmative :
    (∀ (p : List Char) (pat : PatternFindings) (d : CharacterDiversity),
       0 < (generate_recommendations p pat d).length) ∧
    (∀ p : List Char, 12 ≤ p.length →
       get_character_diversity p = ⟨true, true, true, true, true⟩ →
       check_patterns p = ⟨false, false, false, false, false, false⟩ →
       generate_recommendations p (check_patterns p)
         (get_character_diversity p) =
         ["Great password! Consider using a password manager to store it securely."]) := by
  constructor
  · exact generate_recommendations_length_pos
  · intro p hlen hd hp
    rw [hp, hd]
    unfold generate_recommendations
    have h12 : ¬ p.length < 12 := Nat.not_lt.mpr hlen
    simp [h12]

/-- Witness for C8 at a concrete length-12 password with all classes
and no patterns. -/
theorem recommendations_affirmative_witness :
    generate_recommendations ("aB 3!fK9#mQ2".toList)
      (check_patterns ("aB 3!fK9#mQ2".toList))
      (get_character_diversity ("aB 3!fK9#mQ2".toList)) =
      ["Great password! Consider using a password manager to store it securely."] :=
  recommendations_nonempty_and_affirmative.2 ("aB 3!fK9#mQ2".toList)
    (by decide) (by decide) (by decide)

/-- C9: the generated credential depends on the statistics-grade stream
that models the random-module shuffle: two runs differing only in that
stream produce different passwords, so not every draw comes from the
cryptographically secure source. -/
theorem generator_output_depends_on_insecure_stream :
    generate_random (fun _ => 0) (fun _ => 0) 4 true true true true false []
      = Except.ok ("aA0!".toList) ∧
    generate_random (fun _ => 0) (fun _ => 1) 4 true true true true false []
      = Except.ok ("A0!a".toList) ∧
    decide (("aA0!".toList : List Char) = "A0!a".toList) = false :=
  ⟨rfl, rfl, rfl⟩

/-- C10: the exclusion list only filters the fill pool: even when
exclude_chars lists every lowercase character, a successful generation
with the lowercase class selected still contains a lowercase character,
and a concrete run shows an excluded character appearing in the
output. -/
theorem exclusions_do_not_affect_mandatory_class_chars :
    (∀ (sec ins : Nat → Nat) (len : Nat) (uu ud us ea : Bool)
       (s : List Char),
       generate_random sec ins len true uu ud us ea lowercaseChars =
         Except.ok s →
       ∃ c ∈ s, c.isLower = true) ∧
    generate_random (fun _ => 0) (fun _ => 0) 4 true false true false false
      lowercaseChars = Except.ok ("a000".toList) ∧
    decide ('a' ∈ lowercaseChars) = true ∧
    'a'.isLower = true := by
  refine ⟨?_, rfl, rfl, rfl⟩
  intro sec ins len uu ud us ea s h
  exact ok_mem_lower sec ins len uu ud us ea lowercaseChars s h

/-- Witness for C10: the concrete run from the theorem, instantiated. -/
theorem exclusions_do_not_affect_mandatory_class_chars_witness :
    ∃ c ∈ ("a000".toList : List Char), c.isLower = true :=
  exclusions_do_not_affect_mandatory_class_chars.1 (fun _ => 0) (fun _ => 0)
    4 false true false false ("a000".toList) rfl

end SecurePass
